import Mathlib

/-!
Shallow embedding of the etcd lease RPC client module (`src/rpc/lease.rs`)
of the `etcdv3` crate, together with theorems settling the behavioural
claims about it.

Machine integers (`i64`) carry no arithmetic in this module (fields are
only copied), so they are modelled as `Int`.  Fallible calls are modelled
with `Except Error`.  The gRPC stub `PbLeaseClient` is modelled as an
oracle: a record of functions from request to `Except Error` response,
so that "which request was sent" is observable as the argument the
embedded client function applies the oracle to.
-/

namespace EtcdLease

/-- Modelled from the spec: the generated protobuf response header
(`ResponseHeader` of `etcdserverpb`), opaque to the lease module, which
only stores and moves it.  Modelled as an abstract token. -/
structure PbResponseHeader where
  raw : Nat
deriving DecidableEq, Repr

/-- Modelled from the spec: `crate::rpc::ResponseHeader`, a wrapper over
the protobuf header (its module is not under `src/`); the lease module
builds it with `ResponseHeader::new` and `From::from`. -/
structure ResponseHeader where
  pb : PbResponseHeader
deriving DecidableEq, Repr

/-- Constructor `ResponseHeader::new`. -/
def ResponseHeader.new (h : PbResponseHeader) : ResponseHeader := ⟨h⟩

/-- Conversion `From<&PbResponseHeader> for &ResponseHeader` used by the
`header()` accessors. -/
def ResponseHeader.ofPb (h : PbResponseHeader) : ResponseHeader := ⟨h⟩

/-- The crate error type; the lease module only constructs
`Error::WatchError(String)`, other errors come from the transport. -/
inductive Error where
  | WatchError (msg : String) : Error
  | Transport (msg : String) : Error
deriving DecidableEq, Repr

/-- Modelled from the spec (§6 Unary Grant): protobuf
`LeaseGrantRequest { ttl: i64, id: i64 }`, field set matching
`LeaseGrantOptions::new` in the source. -/
structure PbLeaseGrantRequest where
  ttl : Int
  id : Int
deriving DecidableEq, Repr

/-- Modelled from the spec (§6 Unary Grant): protobuf
`LeaseGrantResponse { header, id, ttl, error: bytes }`, field set matching
the accessors of `LeaseGrantResponse` in the source. -/
structure PbLeaseGrantResponse where
  header : Option PbResponseHeader
  id : Int
  ttl : Int
  error : List Nat
deriving DecidableEq, Repr

/-- Modelled from the spec (§6 Unary Revoke): protobuf
`LeaseRevokeRequest { id: i64 }`, field set matching
`LeaseRevokeOptions::new` in the source. -/
structure PbLeaseRevokeRequest where
  id : Int
deriving DecidableEq, Repr

/-- Modelled from the spec (§6 Unary Revoke): protobuf
`LeaseRevokeResponse { header }` (header only). -/
structure PbLeaseRevokeResponse where
  header : Option PbResponseHeader
deriving DecidableEq, Repr

/-- Modelled from the spec (§3, §6): protobuf
`LeaseKeepAliveRequest { id: i64 }`, field set matching
`LeaseKeepAliveOptions::new` in the source. -/
structure PbLeaseKeepAliveRequest where
  id : Int
deriving DecidableEq, Repr

/-- Modelled from the spec (§3, §6): protobuf
`LeaseKeepAliveResponse { header, id, ttl }`, field set matching the
accessors of `LeaseKeepAliveResponse` in the source. -/
structure PbLeaseKeepAliveResponse where
  header : Option PbResponseHeader
  id : Int
  ttl : Int
deriving DecidableEq, Repr

/-- Modelled from the spec (§6 Unary TimeToLive): protobuf
`LeaseTimeToLiveRequest { id: i64, keys: bool }`, field set matching
`LeaseTimeToLiveOptions::new` in the source. -/
structure PbLeaseTimeToLiveRequest where
  id : Int
  keys : Bool
deriving DecidableEq, Repr

/-- Modelled from the spec (§6 Unary TimeToLive): protobuf
`LeaseTimeToLiveResponse { header, id, ttl, granted_ttl, keys }`. -/
structure PbLeaseTimeToLiveResponse where
  header : Option PbResponseHeader
  id : Int
  ttl : Int
  granted_ttl : Int
  keys : List (List Nat)
deriving DecidableEq, Repr

/-- Modelled from the spec (§6 Unary Leases): protobuf
`LeaseLeasesRequest {}` (no fields), matching `LeaseLeasesOptions::new`
in the source. -/
structure PbLeaseLeasesRequest where
deriving DecidableEq, Repr

/-- Modelled from the spec (§6 Unary Leases): protobuf
`LeaseStatus { id: i64 }`. -/
structure LeaseStatus where
  id : Int
deriving DecidableEq, Repr

/-- Modelled from the spec (§6 Unary Leases): protobuf
`LeaseLeasesResponse { header, leases }`. -/
structure PbLeaseLeasesResponse where
  header : Option PbResponseHeader
  leases : List LeaseStatus
deriving DecidableEq, Repr

/-- Options for the `leaseGrant` operation: newtype over the request
(`pub struct LeaseGrantOptions(PbLeaseGrantRequest)`). -/
structure LeaseGrantOptions where
  pb : PbLeaseGrantRequest
deriving DecidableEq, Repr

/-- `LeaseGrantOptions::new`: both fields zero.  The derived `Default`
coincides with it. -/
def LeaseGrantOptions.new : LeaseGrantOptions := ⟨⟨0, 0⟩⟩

/-- `LeaseGrantOptions::with_ttl`. -/
def LeaseGrantOptions.with_ttl (o : LeaseGrantOptions) (ttl : Int) : LeaseGrantOptions :=
  ⟨{ o.pb with ttl := ttl }⟩

/-- `LeaseGrantOptions::with_id`. -/
def LeaseGrantOptions.with_id (o : LeaseGrantOptions) (id : Int) : LeaseGrantOptions :=
  ⟨{ o.pb with id := id }⟩

/-- `From<LeaseGrantOptions> for PbLeaseGrantRequest`. -/
def LeaseGrantOptions.toPb (o : LeaseGrantOptions) : PbLeaseGrantRequest := o.pb

/-- Options for the `leaseRevoke` operation: newtype over the request. -/
structure LeaseRevokeOptions where
  pb : PbLeaseRevokeRequest
deriving DecidableEq, Repr

/-- `LeaseRevokeOptions::new`: id zero.  The derived `Default` coincides
with it. -/
def LeaseRevokeOptions.new : LeaseRevokeOptions := ⟨⟨0⟩⟩

/-- `LeaseRevokeOptions::with_id` (defined in the source but never
called by `lease_revoke`). -/
def LeaseRevokeOptions.with_id (o : LeaseRevokeOptions) (id : Int) : LeaseRevokeOptions :=
  ⟨{ o.pb with id := id }⟩

/-- `From<LeaseRevokeOptions> for PbLeaseRevokeRequest`. -/
def LeaseRevokeOptions.toPb (o : LeaseRevokeOptions) : PbLeaseRevokeRequest := o.pb

/-- Options for the `leaseKeepAlive` operation: newtype over the request. -/
structure LeaseKeepAliveOptions where
  pb : PbLeaseKeepAliveRequest
deriving DecidableEq, Repr

/-- `LeaseKeepAliveOptions::new`: id zero.  The derived `Default`
coincides with it. -/
def LeaseKeepAliveOptions.new : LeaseKeepAliveOptions := ⟨⟨0⟩⟩

/-- `LeaseKeepAliveOptions::with_id`. -/
def LeaseKeepAliveOptions.with_id (o : LeaseKeepAliveOptions) (id : Int) : LeaseKeepAliveOptions :=
  ⟨{ o.pb with id := id }⟩

/-- `From<LeaseKeepAliveOptions> for PbLeaseKeepAliveRequest`. -/
def LeaseKeepAliveOptions.toPb (o : LeaseKeepAliveOptions) : PbLeaseKeepAliveRequest := o.pb

/-- Options for the `leaseTimeToLive` operation: newtype over the request. -/
structure LeaseTimeToLiveOptions where
  pb : PbLeaseTimeToLiveRequest
deriving DecidableEq, Repr

/-- `LeaseTimeToLiveOptions::new`: id zero, keys false.  The derived
`Default` coincides with it. -/
def LeaseTimeToLiveOptions.new : LeaseTimeToLiveOptions := ⟨⟨0, false⟩⟩

/-- `LeaseTimeToLiveOptions::with_id` (defined in the source but never
called by `lease_time_to_live`). -/
def LeaseTimeToLiveOptions.with_id (o : LeaseTimeToLiveOptions) (id : Int) : LeaseTimeToLiveOptions :=
  ⟨{ o.pb with id := id }⟩

/-- `LeaseTimeToLiveOptions::with_keys` (defined in the source but never
called by `lease_time_to_live`). -/
def LeaseTimeToLiveOptions.with_keys (o : LeaseTimeToLiveOptions) (keys : Bool) : LeaseTimeToLiveOptions :=
  ⟨{ o.pb with keys := keys }⟩

/-- `From<LeaseTimeToLiveOptions> for PbLeaseTimeToLiveRequest`. -/
def LeaseTimeToLiveOptions.toPb (o : LeaseTimeToLiveOptions) : PbLeaseTimeToLiveRequest := o.pb

/-- Options for the `leaseLeases` operation: newtype over the (empty)
request. -/
structure LeaseLeasesOptions where
  pb : PbLeaseLeasesRequest
deriving DecidableEq, Repr

/-- `LeaseLeasesOptions::new`. -/
def LeaseLeasesOptions.new : LeaseLeasesOptions := ⟨⟨⟩⟩

/-- `From<LeaseLeasesOptions> for PbLeaseLeasesRequest`. -/
def LeaseLeasesOptions.toPb (o : LeaseLeasesOptions) : PbLeaseLeasesRequest := o.pb

/-- Response wrapper for `leaseGrant`
(`pub struct LeaseGrantResponse(PbLeaseGrantResponse)`). -/
structure LeaseGrantResponse where
  pb : PbLeaseGrantResponse
deriving DecidableEq, Repr

/-- `LeaseGrantResponse::new`. -/
def LeaseGrantResponse.new (resp : PbLeaseGrantResponse) : LeaseGrantResponse := ⟨resp⟩

/-- `LeaseGrantResponse::header`: `self.0.header.as_ref().map(From::from)`. -/
def LeaseGrantResponse.header (r : LeaseGrantResponse) : Option ResponseHeader :=
  r.pb.header.map ResponseHeader.ofPb

/-- `LeaseGrantResponse::take_header`: `self.0.header.take().map(ResponseHeader::new)`.
`Option::take` on the mutable receiver is modelled by returning the taken
value together with the updated receiver. -/
def LeaseGrantResponse.take_header (r : LeaseGrantResponse) :
    Option ResponseHeader × LeaseGrantResponse :=
  (r.pb.header.map ResponseHeader.new, ⟨{ r.pb with header := none }⟩)

/-- `LeaseGrantResponse::ttl`. -/
def LeaseGrantResponse.ttl (r : LeaseGrantResponse) : Int := r.pb.ttl

/-- `LeaseGrantResponse::id`. -/
def LeaseGrantResponse.id (r : LeaseGrantResponse) : Int := r.pb.id

/-- `LeaseGrantResponse::error`: `self.0.error.as_ref()`. -/
def LeaseGrantResponse.error (r : LeaseGrantResponse) : List Nat := r.pb.error

/-- Response wrapper for `leaseRevoke`. -/
structure LeaseRevokeResponse where
  pb : PbLeaseRevokeResponse
deriving DecidableEq, Repr

/-- `LeaseRevokeResponse::new`. -/
def LeaseRevokeResponse.new (resp : PbLeaseRevokeResponse) : LeaseRevokeResponse := ⟨resp⟩

/-- `LeaseRevokeResponse::header`. -/
def LeaseRevokeResponse.header (r : LeaseRevokeResponse) : Option ResponseHeader :=
  r.pb.header.map ResponseHeader.ofPb

/-- `LeaseRevokeResponse::take_header`. -/
def LeaseRevokeResponse.take_header (r : LeaseRevokeResponse) :
    Option ResponseHeader × LeaseRevokeResponse :=
  (r.pb.header.map ResponseHeader.new, ⟨{ r.pb with header := none }⟩)

/-- Response wrapper for `leaseKeepAlive`. -/
structure LeaseKeepAliveResponse where
  pb : PbLeaseKeepAliveResponse
deriving DecidableEq, Repr

/-- `LeaseKeepAliveResponse::new`. -/
def LeaseKeepAliveResponse.new (resp : PbLeaseKeepAliveResponse) : LeaseKeepAliveResponse :=
  ⟨resp⟩

/-- `LeaseKeepAliveResponse::header`. -/
def LeaseKeepAliveResponse.header (r : LeaseKeepAliveResponse) : Option ResponseHeader :=
  r.pb.header.map ResponseHeader.ofPb

/-- `LeaseKeepAliveResponse::take_header`. -/
def LeaseKeepAliveResponse.take_header (r : LeaseKeepAliveResponse) :
    Option ResponseHeader × LeaseKeepAliveResponse :=
  (r.pb.header.map ResponseHeader.new, ⟨{ r.pb with header := none }⟩)

/-- `LeaseKeepAliveResponse::ttl`. -/
def LeaseKeepAliveResponse.ttl (r : LeaseKeepAliveResponse) : Int := r.pb.ttl

/-- `LeaseKeepAliveResponse::id`. -/
def LeaseKeepAliveResponse.id (r : LeaseKeepAliveResponse) : Int := r.pb.id

/-- Response wrapper for `leaseTimeToLive`. -/
structure LeaseTimeToLiveResponse where
  pb : PbLeaseTimeToLiveResponse
deriving DecidableEq, Repr

/-- `LeaseTimeToLiveResponse::new`. -/
def LeaseTimeToLiveResponse.new (resp : PbLeaseTimeToLiveResponse) : LeaseTimeToLiveResponse :=
  ⟨resp⟩

/-- `LeaseTimeToLiveResponse::header`. -/
def LeaseTimeToLiveResponse.header (r : LeaseTimeToLiveResponse) : Option ResponseHeader :=
  r.pb.header.map ResponseHeader.ofPb

/-- `LeaseTimeToLiveResponse::take_header`. -/
def LeaseTimeToLiveResponse.take_header (r : LeaseTimeToLiveResponse) :
    Option ResponseHeader × LeaseTimeToLiveResponse :=
  (r.pb.header.map ResponseHeader.new, ⟨{ r.pb with header := none }⟩)

/-- `LeaseTimeToLiveResponse::ttl`. -/
def LeaseTimeToLiveResponse.ttl (r : LeaseTimeToLiveResponse) : Int := r.pb.ttl

/-- `LeaseTimeToLiveResponse::id`. -/
def LeaseTimeToLiveResponse.id (r : LeaseTimeToLiveResponse) : Int := r.pb.id

/-- `LeaseTimeToLiveResponse::grantedTTL`. -/
def LeaseTimeToLiveResponse.grantedTTL (r : LeaseTimeToLiveResponse) : Int := r.pb.granted_ttl

/-- Response wrapper for `leaseLeases`. -/
structure LeaseLeasesResponse where
  pb : PbLeaseLeasesResponse
deriving DecidableEq, Repr

/-- `LeaseLeasesResponse::new`. -/
def LeaseLeasesResponse.new (resp : PbLeaseLeasesResponse) : LeaseLeasesResponse := ⟨resp⟩

/-- `LeaseLeasesResponse::header`. -/
def LeaseLeasesResponse.header (r : LeaseLeasesResponse) : Option ResponseHeader :=
  r.pb.header.map ResponseHeader.ofPb

/-- `LeaseLeasesResponse::take_header`. -/
def LeaseLeasesResponse.take_header (r : LeaseLeasesResponse) :
    Option ResponseHeader × LeaseLeasesResponse :=
  (r.pb.header.map ResponseHeader.new, ⟨{ r.pb with header := none }⟩)

/-- The generated gRPC stub `PbLeaseClient`, modelled as an oracle: one
function per unary RPC, mapping the request actually sent to the
authority's reply (or a transport error).  The keep-alive RPC is a
bidirectional stream in the proto; the source never opens it (the code
that would is commented out), so it is not part of the oracle. -/
structure PbLeaseClient where
  lease_grant : PbLeaseGrantRequest → Except Error PbLeaseGrantResponse
  lease_revoke : PbLeaseRevokeRequest → Except Error PbLeaseRevokeResponse
  lease_time_to_live : PbLeaseTimeToLiveRequest → Except Error PbLeaseTimeToLiveResponse
  lease_leases : PbLeaseLeasesRequest → Except Error PbLeaseLeasesResponse

/-- A bounded mpsc channel (`tokio::sync::mpsc::channel`), modelled by
its capacity and the queue of messages sent but not yet received. -/
structure Channel (α : Type) where
  capacity : Nat
  queue : List α
deriving DecidableEq, Repr

/-- `channel(cap)`: a fresh bounded channel with an empty queue. -/
def Channel.new (α : Type) (cap : Nat) : Channel α := ⟨cap, []⟩

/-- `Sender::send`: succeeds (appending the message) while the buffer
has room and the receiver is alive; in `lease_keep_alive` the receiver
is alive in scope, so only the capacity bound remains.  The error
string is the one the caller maps into `Error::WatchError`. -/
def Channel.send {α : Type} (ch : Channel α) (x : α) : Except String (Channel α) :=
  if ch.queue.length < ch.capacity then .ok ⟨ch.capacity, ch.queue ++ [x]⟩
  else .error "channel full"

/-- The request `lease_grant` passes to the stub:
`options.unwrap_or_default().with_id(id).with_ttl(ttl)` (line 54). -/
def lease_grant_request (ttl : Int) (id : Int) (options : Option LeaseGrantOptions) :
    PbLeaseGrantRequest :=
  (((options.getD LeaseGrantOptions.new).with_id id).with_ttl ttl).toPb

/-- `LeaseClient::lease_grant` (lines 46-58). -/
def lease_grant (client : PbLeaseClient) (ttl : Int) (id : Int)
    (options : Option LeaseGrantOptions) : Except Error LeaseGrantResponse := do
  let resp ← client.lease_grant (lease_grant_request ttl id options)
  pure (LeaseGrantResponse.new resp)

/-- The request `lease_revoke` passes to the stub:
`options.unwrap_or_default()` (line 69) — the `id` parameter is unused. -/
def lease_revoke_request (id : Int) (options : Option LeaseRevokeOptions) :
    PbLeaseRevokeRequest :=
  let _ := id
  (options.getD LeaseRevokeOptions.new).toPb

/-- `LeaseClient::lease_revoke` (lines 62-73). -/
def lease_revoke (client : PbLeaseClient) (id : Int)
    (options : Option LeaseRevokeOptions) : Except Error LeaseRevokeResponse := do
  let resp ← client.lease_revoke (lease_revoke_request id options)
  pure (LeaseRevokeResponse.new resp)

/-- The single keep-alive request `lease_keep_alive` constructs and sends
into its local channel: `options.unwrap_or_default().with_id(id).into()`
(line 85). -/
def lease_keep_alive_request (id : Int) (options : Option LeaseKeepAliveOptions) :
    PbLeaseKeepAliveRequest :=
  ((options.getD LeaseKeepAliveOptions.new).with_id id).toPb

/-- `LeaseClient::lease_keep_alive` (lines 78-104), with the local
channel state exposed: creates a channel of capacity 100, sends the
single request into it, and returns the constant pair `(1, 2)`; the
stub (`client`) is never consulted — the streaming code is commented
out in the source. -/
def lease_keep_alive_state (client : PbLeaseClient) (id : Int)
    (options : Option LeaseKeepAliveOptions) :
    Except Error ((Int × Int) × Channel PbLeaseKeepAliveRequest) := do
  let _ := client
  let ch := Channel.new PbLeaseKeepAliveRequest 100
  let ch ← (ch.send (lease_keep_alive_request id options)).mapError Error.WatchError
  pure ((1, 2), ch)

/-- The value `lease_keep_alive` returns to its caller. -/
def lease_keep_alive (client : PbLeaseClient) (id : Int)
    (options : Option LeaseKeepAliveOptions) : Except Error (Int × Int) :=
  (lease_keep_alive_state client id options).map Prod.fst

/-- The request `lease_time_to_live` passes to the stub:
`options.unwrap_or_default()` (line 115) — the `id` and `keys`
parameters are unused. -/
def lease_time_to_live_request (id : Int) (keys : Bool)
    (options : Option LeaseTimeToLiveOptions) : PbLeaseTimeToLiveRequest :=
  let _ := id
  let _ := keys
  (options.getD LeaseTimeToLiveOptions.new).toPb

/-- `LeaseClient::lease_time_to_live` (lines 107-119). -/
def lease_time_to_live (client : PbLeaseClient) (id : Int) (keys : Bool)
    (options : Option LeaseTimeToLiveOptions) : Except Error LeaseTimeToLiveResponse := do
  let resp ← client.lease_time_to_live (lease_time_to_live_request id keys options)
  pure (LeaseTimeToLiveResponse.new resp)

/-- The request `lease_leases` passes to the stub:
`options.unwrap_or_default()` (line 128). -/
def lease_leases_request (options : Option LeaseLeasesOptions) : PbLeaseLeasesRequest :=
  (options.getD LeaseLeasesOptions.new).toPb

/-- `LeaseClient::lease_leases` (lines 122-132): invokes the stub's
`lease_leases` RPC. -/
def lease_leases (client : PbLeaseClient) (options : Option LeaseLeasesOptions) :
    Except Error LeaseLeasesResponse := do
  let resp ← client.lease_leases (lease_leases_request options)
  pure (LeaseLeasesResponse.new resp)

/-- Modelled from the spec (§3 Data model): lease state
`state ∈ {Pending, Active, Expired, Revoked}`.  The Registry/Dispatcher
component is described by the spec but absent from `src/`. -/
inductive LeaseState where
  | Pending : LeaseState
  | Active : LeaseState
  | Expired : LeaseState
  | Revoked : LeaseState
deriving DecidableEq, Repr

/-- Modelled from the spec (§3 Data model): a tracked lease record with
`id`, `granted_ttl`, `deadline` and `state`. -/
structure LeaseRecord where
  id : Int
  granted_ttl : Int
  deadline : Int
  state : LeaseState
deriving DecidableEq, Repr

/-- Modelled from the spec (§2, §3): the Lease Registry, a mapping from
lease identifier to its current state, here a list of records keyed by
`id`. -/
def Registry : Type := List LeaseRecord

/-- Whether a lease id is currently tracked in the Registry. -/
def Registry.tracked (reg : Registry) (id : Int) : Bool :=
  List.any reg (fun r => r.id == id)

/-- Modelled from the spec (§6): the events a Lease Handle can receive,
`{renewed(deadline) | revoked | expired | manager_closed}`. -/
inductive HandleEvent where
  | renewed (deadline : Int) : HandleEvent
  | revoked : HandleEvent
  | expired : HandleEvent
  | managerClosed : HandleEvent
deriving DecidableEq, Repr

/-- Modelled from the spec (§4.3 Dispatcher): consume one keep-alive
response and update state.  On `ttl == 0`: mark the lease revoked if
still tracked, notify its Handle with a terminal event, remove it from
the Registry; on `ttl > 0` for a tracked `Pending`/`Active` lease:
update `granted_ttl`, `deadline = now + ttl`, state `Active`, push a
renewal event; on unknown `id`: ignore.  Returns the updated Registry
and the list of `(lease id, event)` notifications pushed to Handles. -/
def dispatchResponse (now : Int) (reg : Registry) (resp : PbLeaseKeepAliveResponse) :
    Registry × List (Int × HandleEvent) :=
  if resp.ttl = 0 then
    if reg.tracked resp.id then
      (List.filter (fun r => !(r.id == resp.id)) reg, [(resp.id, HandleEvent.revoked)])
    else (reg, [])
  else
    match List.find? (fun r => r.id == resp.id) reg with
    | some r =>
        if r.state = LeaseState.Active ∨ r.state = LeaseState.Pending then
          (List.map (fun q => if q.id == resp.id then
              { q with granted_ttl := resp.ttl, deadline := now + resp.ttl,
                       state := LeaseState.Active } else q) reg,
           [(resp.id, HandleEvent.renewed (now + resp.ttl))])
        else (reg, [])
    | none => (reg, [])

/-- A concrete oracle whose every RPC fails with a transport error; used
to instantiate universally quantified statements at a specific client. -/
def stubClient : PbLeaseClient where
  lease_grant := fun _ => .error (.Transport "offline")
  lease_revoke := fun _ => .error (.Transport "offline")
  lease_time_to_live := fun _ => .error (.Transport "offline")
  lease_leases := fun _ => .error (.Transport "offline")

/-- Filtering out every record with a given id leaves no record with
that id, so the id is no longer tracked. -/
theorem tracked_filter_ne_self (l : List LeaseRecord) (x : Int) :
    List.any (List.filter (fun r => !(r.id == x)) l) (fun r => r.id == x) = false := by
  induction l with
  | nil => rfl
  | cons a l ih =>
      by_cases h : a.id = x
      · simp [List.filter_cons, h, ih]
      · simp [List.filter_cons, h, ih]

/-- C1: the claim says `lease_keep_alive` establishes the keep-alive
operation as a bidirectional stream with the authority and returns the
lease id and TTL acknowledged by the server's first response.  The code
does not: this theorem evaluates it at the failing input (id 5, no
options, a client whose every RPC fails) and shows the result is the
fixed placeholder `Ok((1, 2))` for every client, id and options — the
server is never contacted. -/
theorem lease_keep_alive_placeholder_bug :
    lease_keep_alive stubClient 5 none = Except.ok (1, 2) ∧
    ∀ (c : PbLeaseClient) (id : Int) (opts : Option LeaseKeepAliveOptions),
      lease_keep_alive c id opts = Except.ok (1, 2) :=
  ⟨rfl, fun _ _ _ => rfl⟩

/-- C2: the claim says `lease_revoke(id, None)` sends a revoke request
whose id field equals the caller-supplied id.  The code passes
`options.unwrap_or_default()` to the stub without calling `with_id`, so
the sent id is always 0: at the failing input `id = 1` the request
carries 0, and likewise for every caller-supplied id. -/
theorem lease_revoke_sends_id_zero :
    (lease_revoke_request 1 none).id = 0 ∧
    ∀ (id : Int) (c : PbLeaseClient),
      (lease_revoke_request id none).id = 0 ∧
      lease_revoke c id none = (do
        let resp ← c.lease_revoke { id := 0 }
        pure (LeaseRevokeResponse.new resp)) :=
  ⟨rfl, fun _ _ => ⟨rfl, rfl⟩⟩

/-- C3: the claim says `lease_time_to_live(id, keys, None)` sends a
request whose id and keys fields equal the caller-supplied values.  The
code passes `options.unwrap_or_default()` to the stub without calling
`with_id` or `with_keys`, so the sent request is always
`{id: 0, keys: false}`, whatever the caller supplied. -/
theorem lease_time_to_live_sends_default_request :
    lease_time_to_live_request 1 true none = { id := 0, keys := false } ∧
    ∀ (id : Int) (keys : Bool) (c : PbLeaseClient),
      lease_time_to_live_request id keys none = { id := 0, keys := false } ∧
      lease_time_to_live c id keys none = (do
        let resp ← c.lease_time_to_live { id := 0, keys := false }
        pure (LeaseTimeToLiveResponse.new resp)) :=
  ⟨rfl, fun _ _ _ => ⟨rfl, rfl⟩⟩

/-- C4: whenever the initial buffered-channel send of the keep-alive
request succeeds, `lease_keep_alive` returns `Ok((1, 2))` — the same
constant pair regardless of its inputs and of the client (so no server
response is read) — and on the fresh capacity-100 channel that single
initial send does always succeed. -/
theorem lease_keep_alive_constant_on_send_success :
    ∀ (c : PbLeaseClient) (id : Int) (opts : Option LeaseKeepAliveOptions)
      (ch : Channel PbLeaseKeepAliveRequest),
      (Channel.new PbLeaseKeepAliveRequest 100).send (lease_keep_alive_request id opts) =
        Except.ok ch →
      lease_keep_alive c id opts = Except.ok (1, 2) ∧
      (∀ (c2 : PbLeaseClient) (id2 : Int) (opts2 : Option LeaseKeepAliveOptions),
        lease_keep_alive c2 id2 opts2 = lease_keep_alive c id opts) ∧
      (∀ (id2 : Int) (opts2 : Option LeaseKeepAliveOptions),
        ((Channel.new PbLeaseKeepAliveRequest 100).send
          (lease_keep_alive_request id2 opts2)).isOk = true) :=
  fun _ _ _ _ _ => ⟨rfl, fun _ _ _ => rfl, fun _ _ => rfl⟩

/-- Witness for C4 at a concrete input: client `stubClient`, lease id 3,
no options; the fresh channel send succeeds with the request enqueued. -/
theorem lease_keep_alive_constant_witness :
    lease_keep_alive stubClient 3 none = Except.ok (1, 2) :=
  (lease_keep_alive_constant_on_send_success stubClient 3 none
    { capacity := 100, queue := [{ id := 3 }] } rfl).1

/-- C5: `lease_grant(ttl, id, options)` sends a grant request whose
`ttl` and `id` fields equal the caller-supplied values, overriding any
values carried in the options, and the returned `LeaseGrantResponse`
exposes exactly the underlying response's id, ttl and error bytes. -/
theorem lease_grant_request_and_response_faithful :
    ∀ (ttl id : Int) (opts : Option LeaseGrantOptions) (c : PbLeaseClient)
      (resp : PbLeaseGrantResponse),
      lease_grant_request ttl id opts = { ttl := ttl, id := id } ∧
      lease_grant c ttl id opts = (do
        let r ← c.lease_grant { ttl := ttl, id := id }
        pure (LeaseGrantResponse.new r)) ∧
      (LeaseGrantResponse.new resp).id = resp.id ∧
      (LeaseGrantResponse.new resp).ttl = resp.ttl ∧
      (LeaseGrantResponse.new resp).error = resp.error :=
  fun _ _ _ _ _ => ⟨rfl, rfl, rfl, rfl, rfl⟩

/-- C6: `lease_leases` invokes the stub's list-leases RPC with the empty
request, for every options value: its result is the `lease_leases`
oracle applied to the empty request, and two clients that agree on the
`lease_leases` oracle (however much their `lease_time_to_live` oracles
differ) give the same result, for any two options values. -/
theorem lease_leases_invokes_list_rpc :
    ∀ (c c2 : PbLeaseClient) (opts opts2 : Option LeaseLeasesOptions),
      c.lease_leases = c2.lease_leases →
      lease_leases c opts = (do
        let r ← c.lease_leases PbLeaseLeasesRequest.mk
        pure (LeaseLeasesResponse.new r)) ∧
      lease_leases c opts = lease_leases c2 opts2 := by
  intro c c2 opts opts2 h
  constructor
  · rfl
  · unfold lease_leases
    rw [h]

/-- Witness for C6 at concrete inputs: the same concrete client on both
sides, with `None` against explicit default options. -/
theorem lease_leases_invokes_list_rpc_witness :
    lease_leases stubClient none = lease_leases stubClient (some LeaseLeasesOptions.new) :=
  (lease_leases_invokes_list_rpc stubClient stubClient none
    (some LeaseLeasesOptions.new) rfl).2

/-- C7: the single keep-alive request `lease_keep_alive` constructs and
enqueues carries exactly the caller-supplied lease id (`with_id`
overrides any id carried in the options), and the local channel after
the send holds exactly that one request. -/
theorem lease_keep_alive_enqueues_caller_id :
    ∀ (c : PbLeaseClient) (id : Int) (opts : Option LeaseKeepAliveOptions),
      (lease_keep_alive_request id opts).id = id ∧
      lease_keep_alive_state c id opts =
        Except.ok ((1, 2), { capacity := 100, queue := [{ id := id }] }) :=
  fun _ _ _ => ⟨rfl, rfl⟩

/-- C8: the `LeaseKeepAliveResponse` wrapper's `id()` and `ttl()`
accessors return exactly the underlying response's fields, unmodified;
in particular a ttl of 0 is observable exactly as sent. -/
theorem keep_alive_response_accessors_exact :
    ∀ (resp : PbLeaseKeepAliveResponse),
      (LeaseKeepAliveResponse.new resp).id = resp.id ∧
      (LeaseKeepAliveResponse.new resp).ttl = resp.ttl ∧
      ((LeaseKeepAliveResponse.new resp).ttl = 0 ↔ resp.ttl = 0) :=
  fun _ => ⟨rfl, rfl, Iff.rfl⟩

/-- C9: whenever a response with ttl 0 arrives for a lease currently
tracked in the Registry, the Dispatcher pushes exactly one terminal
`revoked` event for that lease, and immediately afterwards the lease is
absent from the Registry. -/
theorem dispatch_ttl_zero_revokes_exactly_once :
    ∀ (now : Int) (reg : Registry) (resp : PbLeaseKeepAliveResponse),
      resp.ttl = 0 → reg.tracked resp.id = true →
      (dispatchResponse now reg resp).2 = [(resp.id, HandleEvent.revoked)] ∧
      ((dispatchResponse now reg resp).1).tracked resp.id = false := by
  intro now reg resp h0 htr
  unfold dispatchResponse
  rw [if_pos h0, if_pos htr]
  exact ⟨rfl, tracked_filter_ne_self reg resp.id⟩

/-- Witness for C9 at a concrete input: a registry tracking lease 5 and
a response `{id: 5, ttl: 0}`. -/
theorem dispatch_ttl_zero_revokes_witness :
    (dispatchResponse 0
        [{ id := 5, granted_ttl := 10, deadline := 20, state := LeaseState.Active }]
        { header := none, id := 5, ttl := 0 }).2 = [(5, HandleEvent.revoked)] ∧
    ((dispatchResponse 0
        [{ id := 5, granted_ttl := 10, deadline := 20, state := LeaseState.Active }]
        { header := none, id := 5, ttl := 0 }).1).tracked 5 = false :=
  dispatch_ttl_zero_revokes_exactly_once 0
    [{ id := 5, granted_ttl := 10, deadline := 20, state := LeaseState.Active }]
    { header := none, id := 5, ttl := 0 } rfl (by decide)

/-- C10: for every response wrapper type (grant, revoke, keep-alive,
time-to-live, leases), `take_header` yields the old header and leaves
`None` in its place — a subsequent `header()` or `take_header()` returns
`None` — while every other field of the response is unchanged. -/
theorem take_header_removes_header_only :
    ∀ (g : PbLeaseGrantResponse) (rv : PbLeaseRevokeResponse)
      (k : PbLeaseKeepAliveResponse) (t : PbLeaseTimeToLiveResponse)
      (l : PbLeaseLeasesResponse),
      ((LeaseGrantResponse.new g).take_header).1 = g.header.map ResponseHeader.new ∧
      ((LeaseGrantResponse.new g).take_header).2.header = none ∧
      (((LeaseGrantResponse.new g).take_header).2.take_header).1 = none ∧
      ((LeaseGrantResponse.new g).take_header).2.id = g.id ∧
      ((LeaseGrantResponse.new g).take_header).2.ttl = g.ttl ∧
      ((LeaseGrantResponse.new g).take_header).2.error = g.error ∧
      ((LeaseRevokeResponse.new rv).take_header).1 = rv.header.map ResponseHeader.new ∧
      ((LeaseRevokeResponse.new rv).take_header).2.header = none ∧
      (((LeaseRevokeResponse.new rv).take_header).2.take_header).1 = none ∧
      ((LeaseKeepAliveResponse.new k).take_header).1 = k.header.map ResponseHeader.new ∧
      ((LeaseKeepAliveResponse.new k).take_header).2.header = none ∧
      (((LeaseKeepAliveResponse.new k).take_header).2.take_header).1 = none ∧
      ((LeaseKeepAliveResponse.new k).take_header).2.id = k.id ∧
      ((LeaseKeepAliveResponse.new k).take_header).2.ttl = k.ttl ∧
      ((LeaseTimeToLiveResponse.new t).take_header).1 = t.header.map ResponseHeader.new ∧
      ((LeaseTimeToLiveResponse.new t).take_header).2.header = none ∧
      (((LeaseTimeToLiveResponse.new t).take_header).2.take_header).1 = none ∧
      ((LeaseTimeToLiveResponse.new t).take_header).2.id = t.id ∧
      ((LeaseTimeToLiveResponse.new t).take_header).2.ttl = t.ttl ∧
      ((LeaseTimeToLiveResponse.new t).take_header).2.grantedTTL = t.granted_ttl ∧
      ((LeaseTimeToLiveResponse.new t).take_header).2.pb.keys = t.keys ∧
      ((LeaseLeasesResponse.new l).take_header).1 = l.header.map ResponseHeader.new ∧
      ((LeaseLeasesResponse.new l).take_header).2.header = none ∧
      (((LeaseLeasesResponse.new l).take_header).2.take_header).1 = none ∧
      ((LeaseLeasesResponse.new l).take_header).2.pb.leases = l.leases :=
  fun _ _ _ _ _ =>
    ⟨rfl, rfl, rfl, rfl, rfl, rfl, rfl, rfl, rfl, rfl, rfl, rfl, rfl,
     rfl, rfl, rfl, rfl, rfl, rfl, rfl, rfl, rfl, rfl, rfl, rfl⟩

end EtcdLease
